import Mathlib

/-!
Verification of the portfolio/blog single-page application.

Shallow embedding of the data model (`src/src/data/mockData.js`), the blog
list filter and tag handling (`BlogPage` in `src/src/pages/AboutPage.jsx`),
the article loader and related-articles sidebar
(`src/src/pages/BlogPostPage.jsx`), the home-page featured sections
(`src/src/pages/HomePage.jsx`) and the navigation shell
(`src/src/components/Header.jsx`).
-/

namespace Portfolio

/-- One blog-post metadata record, mirroring the object shape of the
`blogPosts` table in `src/src/data/mockData.js`. -/
structure BlogPost where
  id : String
  title : String
  excerpt : String
  date : String
  readTime : String
  tags : List String
  markdownFile : String
  published : Bool
deriving DecidableEq

/-- One project record, mirroring the object shape of the `projects` table in
`src/src/data/mockData.js`.  JS `null` optional URLs become `Option`. -/
structure Project where
  id : String
  name : String
  description : String
  techStack : List String
  github : Option String
  liveUrl : Option String
  image : String
  featured : Bool
deriving DecidableEq

/-- `blogPosts[0]` of `mockData.js`. -/
def post1 : BlogPost :=
  { id := "understanding-database-indexes"
  , title := "Understanding Database Indexes: B-Trees vs LSM-Trees"
  , excerpt := "A deep dive into how different database index structures work and when to use each one for optimal performance."
  , date := "2025-01-15"
  , readTime := "8 min read"
  , tags := ["Database", "Performance", "Data Structures"]
  , markdownFile := "understanding-database-indexes.md"
  , published := true }

/-- `blogPosts[1]` of `mockData.js`. -/
def post2 : BlogPost :=
  { id := "low-latency-communication"
  , title := "Achieving Low Latency in Distributed Systems"
  , excerpt := "Techniques and patterns for building ultra-low latency communication systems including TCP optimizations and zero-copy strategies."
  , date := "2025-01-10"
  , readTime := "12 min read"
  , tags := ["System Design", "Performance", "Networking"]
  , markdownFile := "low-latency-communication.md"
  , published := true }

/-- `blogPosts[2]` of `mockData.js`. -/
def post3 : BlogPost :=
  { id := "microservices-patterns"
  , title := "Essential Microservices Patterns Every Backend Engineer Should Know"
  , excerpt := "Explore critical patterns like Circuit Breaker, Saga, and API Gateway that are essential for building robust microservices architectures."
  , date := "2025-01-05"
  , readTime := "10 min read"
  , tags := ["Microservices", "Backend", "Architecture"]
  , markdownFile := "microservices-patterns.md"
  , published := true }

/-- `blogPosts[3]` of `mockData.js`. -/
def post4 : BlogPost :=
  { id := "postgres-query-optimization"
  , title := "PostgreSQL Query Optimization Techniques"
  , excerpt := "Learn how to analyze and optimize PostgreSQL queries using EXPLAIN, proper indexing strategies, and query rewriting techniques."
  , date := "2024-12-28"
  , readTime := "15 min read"
  , tags := ["PostgreSQL", "Database", "Optimization"]
  , markdownFile := "postgres-query-optimization.md"
  , published := true }

/-- The `blogPosts` table of `mockData.js`, in its literal order. -/
def blogPosts : List BlogPost := [post1, post2, post3, post4]

/-- `projects[0]` of `mockData.js`. -/
def proj1 : Project :=
  { id := "distributed-cache"
  , name := "Distributed Cache System"
  , description := "A high-performance distributed caching system built with Redis and Go, supporting consistent hashing and automatic failover."
  , techStack := ["Go", "Redis", "Docker", "Kubernetes"]
  , github := some "https://github.com/yalathiy/distributed-cache"
  , liveUrl := none
  , image := "https://images.unsplash.com/photo-1558494949-ef010cbdcc31?w=800&h=600&fit=crop"
  , featured := true }

/-- `projects[1]` of `mockData.js`. -/
def proj2 : Project :=
  { id := "realtime-analytics"
  , name := "Real-time Analytics Pipeline"
  , description := "Stream processing pipeline for real-time analytics using Apache Kafka, processing millions of events per second with low latency."
  , techStack := ["Kafka", "Python", "ClickHouse", "Grafana"]
  , github := some "https://github.com/yalathiy/realtime-analytics"
  , liveUrl := none
  , image := "https://images.unsplash.com/photo-1551288049-bebda4e38f71?w=800&h=600&fit=crop"
  , featured := true }

/-- `projects[2]` of `mockData.js`. -/
def proj3 : Project :=
  { id := "database-profiler"
  , name := "Database Query Profiler"
  , description := "A tool for profiling and analyzing database query performance with detailed execution plans and recommendations."
  , techStack := ["Node.js", "PostgreSQL", "React", "D3.js"]
  , github := some "https://github.com/yalathiy/db-profiler"
  , liveUrl := some "https://db-profiler-demo.com"
  , image := "https://images.unsplash.com/photo-1460925895917-afdab827c52f?w=800&h=600&fit=crop"
  , featured := true }

/-- `projects[3]` of `mockData.js`. -/
def proj4 : Project :=
  { id := "api-gateway"
  , name := "Lightweight API Gateway"
  , description := "A fast, lightweight API gateway with rate limiting, authentication, and request routing capabilities."
  , techStack := ["Rust", "Redis", "PostgreSQL", "Docker"]
  , github := some "https://github.com/yalathiy/api-gateway"
  , liveUrl := none
  , image := "https://images.unsplash.com/photo-1555949963-ff9fe0c870eb?w=800&h=600&fit=crop"
  , featured := false }

/-- The `projects` table of `mockData.js`, in its literal order. -/
def projects : List Project := [proj1, proj2, proj3, proj4]

/-- A navigation entry of `Header.jsx` (`navLinks`, lines 11-17). -/
structure NavLink where
  path : String
  label : String
deriving DecidableEq

/-- The `navLinks` array of `Header.jsx`, in its literal order. -/
def navLinks : List NavLink :=
  [ { path := "/", label := "Home" }
  , { path := "/about", label := "About" }
  , { path := "/blog", label := "Blog" }
  , { path := "/projects", label := "Projects" }
  , { path := "/contact", label := "Contact" } ]

/-! ### JS string primitives

`String.prototype.includes` is substring containment; we model it over the
underlying character lists. -/

/-- `charsStartWith hay needle` holds when `needle` is an initial segment of
`hay` (character-by-character comparison, as JS substring search does at one
position). -/
def charsStartWith : List Char → List Char → Bool
  | _, [] => true
  | [], _ :: _ => false
  | a :: as, b :: bs => a == b && charsStartWith as bs

/-- `charsContain hay needle` is true when `needle` occurs contiguously in
`hay`; this is the search performed by JS `includes`. -/
def charsContain : List Char → List Char → Bool
  | [], needle => needle.isEmpty
  | a :: as, needle => charsStartWith (a :: as) needle || charsContain as needle

/-- JS `hay.includes(needle)`. -/
def jsIncludes (hay needle : String) : Bool :=
  charsContain hay.data needle.data

/-- Specification-side notion: `needle` is a contiguous substring of `hay`. -/
def IsSubstr (needle hay : String) : Prop :=
  ∃ l r, hay.data = l ++ needle.data ++ r

/-- JS `toLowerCase` (the dataset is ASCII): `Char.toLower` mapped over the
character list. -/
def jsToLower (s : String) : String :=
  String.mk (s.data.map Char.toLower)

/-! ### Blog list view (`BlogPage` in `src/src/pages/AboutPage.jsx`) -/

/-- Lines 238-239:
`post.title.toLowerCase().includes(searchQuery.toLowerCase()) ||
 post.excerpt.toLowerCase().includes(searchQuery.toLowerCase())`. -/
def matchesSearch (searchQuery : String) (post : BlogPost) : Bool :=
  jsIncludes (jsToLower post.title) (jsToLower searchQuery) ||
    jsIncludes (jsToLower post.excerpt) (jsToLower searchQuery)

/-- Line 240: `!selectedTag || post.tags.includes(selectedTag)`; the JS
`null` selection becomes `none`. -/
def matchesTag (selectedTag : Option String) (post : BlogPost) : Bool :=
  match selectedTag with
  | none => true
  | some tag => post.tags.contains tag

/-- Lines 237-242, parametrised by the table the component closes over:
`posts.filter(post => matchesSearch && matchesTag && post.published)`. -/
def filterPostsIn (posts : List BlogPost) (searchQuery : String)
    (selectedTag : Option String) : List BlogPost :=
  posts.filter fun post =>
    matchesSearch searchQuery post && matchesTag selectedTag post && post.published

/-- The `filteredPosts` value of `BlogPage`, reading the module-level
`blogPosts` table as the source does. -/
def filteredPosts (searchQuery : String) (selectedTag : Option String) :
    List BlogPost :=
  filterPostsIn blogPosts searchQuery selectedTag

/-- Order-preserving first-occurrence deduplication, the iteration order of a
JS `Set` built by insertion.  `seen` are the values already emitted. -/
def jsSetDedupAux (seen : List String) : List String → List String
  | [] => []
  | a :: l =>
    if a ∈ seen then jsSetDedupAux seen l
    else a :: jsSetDedupAux (a :: seen) l

/-- `[...new Set(xs)]` for a list of strings. -/
def jsSetDedup (l : List String) : List String :=
  jsSetDedupAux [] l

/-- Line 234 parametrised by the table:
`[...new Set(posts.flatMap(post => post.tags))]` — note no `published`
filter. -/
def allTagsOf (posts : List BlogPost) : List String :=
  jsSetDedup (posts.flatMap fun post => post.tags)

/-- The `allTags` value of `BlogPage` (line 234). -/
def allTags : List String :=
  allTagsOf blogPosts

/-- Line 276: `setSelectedTag(selectedTag === tag ? null : tag)`. -/
def toggleTag (selectedTag : Option String) (tag : String) : Option String :=
  if selectedTag == some tag then none else some tag

/-! ### Article detail view (`src/src/pages/BlogPostPage.jsx`) -/

/-- Line 19: `blogPosts.find(p => p.id === slug)`, parametrised by the
table. -/
def findPost (posts : List BlogPost) (slug : String) : Option BlogPost :=
  posts.find? fun p => p.id == slug

/-- The component state: `markdownContent` and `loading`
(lines 16-17). -/
structure LoaderState where
  markdownContent : String
  loading : Bool
deriving DecidableEq

/-- `useState('')` and `useState(true)` (lines 16-17). -/
def initialState : LoaderState :=
  { markdownContent := "", loading := true }

/-- The fixed fallback document installed by the `catch` handler
(line 32). -/
def errorFallback : String :=
  "# Error loading article\n\nSorry, this article could not be loaded."

/-- How a fetch settles: either some HTTP response (any status — the code
never reads `response.ok`) whose body text resolves, or a rejected promise
(network failure, or a body-read failure). -/
inductive FetchResult where
  | response (status : Nat) (body : String)
  | networkError
deriving DecidableEq

/-- Lines 24-34: `.then(response => response.text()).then(text => ...)`
stores the body of ANY response and clears `loading`; only a rejected
promise reaches `.catch`, which stores the fixed fallback.  The prior state
is overwritten in every case. -/
def settleFetch (_prev : LoaderState) (r : FetchResult) : LoaderState :=
  match r with
  | .response _ body => { markdownContent := body, loading := false }
  | .networkError => { markdownContent := errorFallback, loading := false }

/-- The effect of a slug change on the component state.  The effect at
lines 21-36 re-runs when `post` changes, but its body contains no
`setLoading(true)` and no content reset before the new fetch settles, so
the state carries over unchanged while the new fetch is pending. -/
def onSlugChange (s : LoaderState) : LoaderState :=
  s

/-- The network requests issued by one mount of the component: the effect
(dependency `[post]`, stable for a fixed slug) runs once; it fetches
`/blogs/${post.markdownFile}` when a post matched and nothing otherwise
(lines 21-36). -/
def mountFetches (posts : List BlogPost) (slug : String) : List String :=
  match findPost posts slug with
  | none => []
  | some post => ["/blogs/" ++ post.markdownFile]

/-- What the component renders. -/
inductive RenderedView where
  | notFound
  | loadingView
  | article (content : String)
deriving DecidableEq

/-- Lines 38-99: the early return renders not-found when no post matched;
otherwise the body shows the loading placeholder while `loading` is true and
hands `markdownContent` to the markdown renderer once it is false. -/
def renderPost (posts : List BlogPost) (slug : String) (s : LoaderState) :
    RenderedView :=
  match findPost posts slug with
  | none => .notFound
  | some _ => if s.loading then .loadingView else .article s.markdownContent

/-- Lines 105-107, parametrised by the table:
`posts.filter(p => p.id !== slug && p.published).slice(0, 3)`. -/
def relatedPostsIn (posts : List BlogPost) (slug : String) : List BlogPost :=
  (posts.filter fun p => !(p.id == slug) && p.published).take 3

/-- The related-articles list of the component, over the module-level
table. -/
def relatedPosts (slug : String) : List BlogPost :=
  relatedPostsIn blogPosts slug

/-- `{ p with published := b }`: same record, published flag replaced. -/
def setPublished (b : Bool) (p : BlogPost) : BlogPost :=
  { p with published := b }

/-! ### Home page (`src/src/pages/HomePage.jsx`, lines 11-12) -/

/-- `blogPosts.filter(post => post.published).slice(0, 3)`. -/
def homeFeaturedPosts : List BlogPost :=
  (blogPosts.filter fun post => post.published).take 3

/-- `projects.filter(project => project.featured).slice(0, 3)`. -/
def homeFeaturedProjects : List Project :=
  (projects.filter fun project => project.featured).take 3

/-! ### Navigation shell (`src/src/components/Header.jsx`, line 19) -/

/-- `const isActive = (path) => location.pathname === path;`. -/
def isActive (pathname path : String) : Bool :=
  pathname == path

/-! ### General lemmas about the embedded primitives -/


theorem charsStartWith_iff (needle : List Char) :
    ∀ hay, charsStartWith hay needle = true ↔ ∃ r, hay = needle ++ r := by
  induction needle with
  | nil =>
    intro hay
    simp [charsStartWith]
  | cons b bs ih =>
    intro hay
    cases hay with
    | nil => simp [charsStartWith]
    | cons a as =>
      rw [charsStartWith]
      simp only [Bool.and_eq_true, beq_iff_eq, ih as]
      constructor
      · rintro ⟨rfl, r, rfl⟩
        exact ⟨r, rfl⟩
      · rintro ⟨r, h⟩
        rw [List.cons_append] at h
        injection h with h1 h2
        exact ⟨h1, r, h2⟩

theorem charsContain_iff (needle : List Char) :
    ∀ hay, charsContain hay needle = true ↔ ∃ l r, hay = l ++ needle ++ r := by
  intro hay
  induction hay with
  | nil =>
    rw [charsContain]
    cases needle with
    | nil => simp
    | cons b bs => simp
  | cons a as ih =>
    rw [charsContain]
    simp only [Bool.or_eq_true, charsStartWith_iff, ih]
    constructor
    · rintro (⟨r, h⟩ | ⟨l, r, h⟩)
      · exact ⟨[], r, by simp [h]⟩
      · exact ⟨a :: l, r, by simp [h]⟩
    · rintro ⟨l, r, h⟩
      cases l with
      | nil =>
        exact Or.inl ⟨r, by simpa using h⟩
      | cons x xs =>
        rw [List.cons_append, List.cons_append] at h
        injection h with h1 h2
        exact Or.inr ⟨xs, r, by simpa using h2⟩

theorem jsIncludes_iff (hay needle : String) :
    jsIncludes hay needle = true ↔ IsSubstr needle hay := by
  rw [jsIncludes, IsSubstr, charsContain_iff]

theorem jsIncludes_empty (hay : String) : jsIncludes hay "" = true := by
  rw [jsIncludes_iff]
  exact ⟨[], hay.data, by simp [show ("" : String).data = [] from rfl]⟩

theorem jsToLower_empty : jsToLower "" = "" := by decide

theorem matchesTag_iff (t : Option String) (p : BlogPost) :
    matchesTag t p = true ↔ t = none ∨ ∃ tag, t = some tag ∧ tag ∈ p.tags := by
  cases t with
  | none => simp [matchesTag]
  | some tag =>
    simp [matchesTag, List.contains, List.elem_iff]

theorem matchesSearch_iff (q : String) (p : BlogPost) :
    matchesSearch q p = true ↔
      IsSubstr (jsToLower q) (jsToLower p.title) ∨
        IsSubstr (jsToLower q) (jsToLower p.excerpt) := by
  rw [matchesSearch, Bool.or_eq_true, jsIncludes_iff, jsIncludes_iff]

theorem mem_jsSetDedupAux (t : String) :
    ∀ (l seen : List String), t ∈ jsSetDedupAux seen l ↔ t ∈ l ∧ t ∉ seen := by
  intro l
  induction l with
  | nil => intro seen; simp [jsSetDedupAux]
  | cons a l ih =>
    intro seen
    rw [jsSetDedupAux]
    by_cases ha : a ∈ seen
    · rw [if_pos ha, ih]
      simp only [List.mem_cons]
      constructor
      · rintro ⟨h1, h2⟩
        exact ⟨Or.inr h1, h2⟩
      · rintro ⟨h1 | h1, h2⟩
        · exact absurd (h1 ▸ ha) h2
        · exact ⟨h1, h2⟩
    · rw [if_neg ha]
      simp only [List.mem_cons, ih]
      constructor
      · rintro (rfl | ⟨h1, h2⟩)
        · exact ⟨Or.inl rfl, ha⟩
        · exact ⟨Or.inr h1, fun hc => h2 (Or.inr hc)⟩
      · rintro ⟨rfl | h1, h2⟩
        · exact Or.inl rfl
        · by_cases hta : t = a
          · exact Or.inl hta
          · exact Or.inr ⟨h1, fun hc => hc.elim hta h2⟩

theorem nodup_jsSetDedupAux :
    ∀ (l seen : List String), (jsSetDedupAux seen l).Nodup := by
  intro l
  induction l with
  | nil => intro seen; simp [jsSetDedupAux]
  | cons a l ih =>
    intro seen
    rw [jsSetDedupAux]
    by_cases ha : a ∈ seen
    · rw [if_pos ha]; exact ih seen
    · rw [if_neg ha]
      refine List.Nodup.cons ?_ (ih (a :: seen))
      intro hc
      exact ((mem_jsSetDedupAux a l (a :: seen)).mp hc).2 (List.mem_cons_self a seen)

theorem mem_jsSetDedup (t : String) (l : List String) :
    t ∈ jsSetDedup l ↔ t ∈ l := by
  rw [jsSetDedup, mem_jsSetDedupAux]
  simp

theorem nodup_jsSetDedup (l : List String) : (jsSetDedup l).Nodup :=
  nodup_jsSetDedupAux l []


theorem blog_subpath_ne (slug p : String)
    (hp : p ∈ ["/", "/about", "/blog", "/projects", "/contact"]) :
    ("/blog/" ++ slug) ≠ p := by
  obtain ⟨d⟩ := slug
  simp only [List.mem_cons, List.not_mem_nil, or_false] at hp
  rcases hp with rfl | rfl | rfl | rfl | rfl
  · intro heq
    have hd := congrArg String.data heq
    rw [show ("/blog/" ++ String.mk d).data = ['/', 'b', 'l', 'o', 'g', '/'] ++ d from rfl,
      show ("/" : String).data = ['/'] from rfl] at hd
    simp at hd
  · intro heq
    have hd := congrArg String.data heq
    rw [show ("/blog/" ++ String.mk d).data = ['/', 'b', 'l', 'o', 'g', '/'] ++ d from rfl,
      show ("/about" : String).data = ['/', 'a', 'b', 'o', 'u', 't'] from rfl] at hd
    simp at hd
  · intro heq
    have hd := congrArg String.data heq
    rw [show ("/blog/" ++ String.mk d).data = ['/', 'b', 'l', 'o', 'g', '/'] ++ d from rfl,
      show ("/blog" : String).data = ['/', 'b', 'l', 'o', 'g'] from rfl] at hd
    simp at hd
  · intro heq
    have hd := congrArg String.data heq
    rw [show ("/blog/" ++ String.mk d).data = ['/', 'b', 'l', 'o', 'g', '/'] ++ d from rfl,
      show ("/projects" : String).data = ['/', 'p', 'r', 'o', 'j', 'e', 'c', 't', 's'] from rfl] at hd
    simp at hd
  · intro heq
    have hd := congrArg String.data heq
    rw [show ("/blog/" ++ String.mk d).data = ['/', 'b', 'l', 'o', 'g', '/'] ++ d from rfl,
      show ("/contact" : String).data = ['/', 'c', 'o', 'n', 't', 'a', 'c', 't'] from rfl] at hd
    simp at hd


/-- C8: a navigation entry is marked active iff its path string equals the
current location's path exactly; there is no prefix matching, so for every
slug, viewing `/blog/` ++ slug marks no top-level navigation entry (in
particular not `/blog`) as active. -/
theorem c8_active_route_exact_match :
    (∀ pathname path : String, isActive pathname path = true ↔ pathname = path) ∧
    (∀ slug : String, ∀ link ∈ navLinks,
      isActive ("/blog/" ++ slug) link.path = false) := by
  constructor
  · intro pathname path
    rw [isActive]
    exact beq_iff_eq
  · intro slug link hl
    rw [isActive, beq_eq_false_iff_ne]
    refine blog_subpath_ne slug link.path ?_
    fin_cases hl <;> decide

/-- Witness for C8 at slug `abc` and the `/blog` entry. -/
theorem c8_witness :
    isActive ("/blog/" ++ "abc") "/blog" = false :=
  c8_active_route_exact_match.2 "abc" { path := "/blog", label := "Blog" }
    (by decide)

/-- C9: clicking a tag badge toggles the selection — if the clicked tag is
already the selected tag the selection becomes `none`, otherwise the clicked
tag replaces any previous selection, so at most one tag is ever selected
(enforced by the `Option` state). -/
theorem c9_tag_toggle :
    ∀ (selectedTag : Option String) (tag : String),
      (selectedTag = some tag → toggleTag selectedTag tag = none) ∧
      (selectedTag ≠ some tag → toggleTag selectedTag tag = some tag) := by
  intro selectedTag tag
  constructor
  · intro h
    rw [toggleTag, if_pos (by rw [h]; exact beq_self_eq_true _)]
  · intro h
    rw [toggleTag, if_neg (by rw [beq_iff_eq]; exact h)]

/-- Witness for C9: toggling the selected tag clears it; clicking a
different or first tag selects it. -/
theorem c9_witness :
    toggleTag (some "Database") "Database" = none ∧
    toggleTag (some "Database") "Networking" = some "Networking" ∧
    toggleTag none "Database" = some "Database" :=
  ⟨(c9_tag_toggle (some "Database") "Database").1 rfl,
   (c9_tag_toggle (some "Database") "Networking").2 (by decide),
   (c9_tag_toggle none "Database").2 (by decide)⟩

/-- Counterexample to C2 as stated: a non-success HTTP response (status
404) does NOT produce the fallback document — the code never reads
`response.ok`, so the raw error-page body is stored as the article text. -/
theorem c2_counterexample :
    settleFetch initialState (FetchResult.response 404 "service unavailable") ≠
      { markdownContent := errorFallback, loading := false } ∧
    settleFetch initialState (FetchResult.response 404 "service unavailable") =
      { markdownContent := "service unavailable", loading := false } := by
  constructor
  · decide
  · rfl

/-- C2 amended: only a rejected fetch (network error) transitions to the
fixed fallback body; the handler is total (never rethrows).  An HTTP
response of any status has its body text stored as if it were the
article. -/
theorem c2_error_handling :
    ∀ s : LoaderState,
      settleFetch s FetchResult.networkError =
        { markdownContent := errorFallback, loading := false } ∧
      ∀ (status : Nat) (body : String),
        settleFetch s (FetchResult.response status body) =
          { markdownContent := body, loading := false } := by
  intro s
  exact ⟨rfl, fun _ _ => rfl⟩

/-- C4 fails on the code (code bug): after a slug change the component
state is carried over unchanged — `loading` stays `false` and the previous
article's markdown is still rendered while the new fetch is pending, so a
stale-data flash occurs instead of a return to the loading state. -/
theorem c4_stale_content_flash :
    (onSlugChange (settleFetch initialState
        (FetchResult.response 200 "OLD ARTICLE BODY"))).loading = false ∧
    renderPost blogPosts "low-latency-communication"
        (onSlugChange (settleFetch initialState
          (FetchResult.response 200 "OLD ARTICLE BODY"))) =
      RenderedView.article "OLD ARTICLE BODY" ∧
    renderPost blogPosts "low-latency-communication"
        (onSlugChange (settleFetch initialState
          (FetchResult.response 200 "OLD ARTICLE BODY"))) ≠
      RenderedView.loadingView := by
  refine ⟨rfl, by decide, by decide⟩


/-- C10: the home page's Latest Articles section is exactly the first
three published posts of the dataset in dataset order, and Featured
Projects is exactly the first three featured projects in dataset order;
neither pads (each has length `min 3` the number of qualifying entries,
and each is an initial segment of the qualifying entries). -/
theorem c10_home_sections :
    homeFeaturedPosts.map (fun p => p.id) =
      ["understanding-database-indexes", "low-latency-communication",
        "microservices-patterns"] ∧
    homeFeaturedProjects.map (fun pr => pr.id) =
      ["distributed-cache", "realtime-analytics", "database-profiler"] ∧
    (∀ p ∈ homeFeaturedPosts, p.published = true) ∧
    (∀ pr ∈ homeFeaturedProjects, pr.featured = true) ∧
    List.Sublist homeFeaturedPosts blogPosts ∧
    List.Sublist homeFeaturedProjects projects ∧
    homeFeaturedPosts.length = min 3 (blogPosts.filter fun p => p.published).length ∧
    homeFeaturedProjects.length = min 3 (projects.filter fun pr => pr.featured).length ∧
    (∃ rest, (blogPosts.filter fun p => p.published) = homeFeaturedPosts ++ rest) ∧
    (∃ rest, (projects.filter fun pr => pr.featured) = homeFeaturedProjects ++ rest) := by
  refine ⟨by decide, by decide, by decide, by decide, by decide, by decide,
    by decide, by decide,
    ⟨(blogPosts.filter fun p => p.published).drop 3, by decide⟩,
    ⟨(projects.filter fun pr => pr.featured).drop 3, by decide⟩⟩

/-- Witness for C10 at the first post and first project. -/
theorem c10_witness : post1.published = true ∧ proj1.featured = true :=
  ⟨c10_home_sections.2.2.1 post1 (by decide),
   c10_home_sections.2.2.2.1 proj1 (by decide)⟩

/-- C6: the tag vocabulary equals the set-union of the tag lists of all
posts — membership iff some post (published or not) carries the tag,
duplicates removed (`Nodup`), and the vocabulary is unchanged when every
`published` flag is rewritten, so unpublished posts contribute equally. -/
theorem c6_tag_vocabulary :
    (∀ (posts : List BlogPost) (b : Bool),
      (∀ t, t ∈ allTagsOf posts ↔ ∃ p ∈ posts, t ∈ p.tags) ∧
      (allTagsOf posts).Nodup ∧
      allTagsOf (posts.map (setPublished b)) = allTagsOf posts) ∧
    allTags = ["Database", "Performance", "Data Structures", "System Design",
      "Networking", "Microservices", "Backend", "Architecture", "PostgreSQL",
      "Optimization"] := by
  constructor
  · intro posts b
    refine ⟨?_, nodup_jsSetDedup _, ?_⟩
    · intro t
      rw [allTagsOf, mem_jsSetDedup]
      exact List.mem_flatMap
    · have hfm : (posts.map (setPublished b)).flatMap (fun post => post.tags) =
          posts.flatMap (fun post => post.tags) := by
        induction posts with
        | nil => rfl
        | cons p ps ih => simp [setPublished, ih]
      rw [allTagsOf, allTagsOf, hfm]
  · decide

/-- Witness for C6: `Networking` is offered because `post2` carries it. -/
theorem c6_witness : "Networking" ∈ allTags :=
  ((c6_tag_vocabulary.1 blogPosts true).1 "Networking").mpr
    ⟨post2, by decide, by decide⟩

/-- C5: for every slug the related-articles list contains only published
posts other than the slug, preserves dataset order (sublist), has exactly
`min 3` qualifying entries, is an initial segment of the qualifying
entries, and equals them outright when three or fewer qualify (no
padding). -/
theorem c5_related_articles :
    ∀ (posts : List BlogPost) (slug : String),
      (∀ p ∈ relatedPostsIn posts slug, p.id ≠ slug ∧ p.published = true) ∧
      List.Sublist (relatedPostsIn posts slug) posts ∧
      (relatedPostsIn posts slug).length =
        min 3 (posts.filter fun p => !(p.id == slug) && p.published).length ∧
      (∃ rest, (posts.filter fun p => !(p.id == slug) && p.published) =
        relatedPostsIn posts slug ++ rest) ∧
      ((posts.filter fun p => !(p.id == slug) && p.published).length ≤ 3 →
        relatedPostsIn posts slug =
          posts.filter fun p => !(p.id == slug) && p.published) := by
  intro posts slug
  refine ⟨?_, ?_, ?_, ?_, ?_⟩
  · intro p hp
    have hp' := List.mem_filter.mp (List.take_subset 3 _ hp)
    have hcond := hp'.2
    simp only [Bool.and_eq_true, Bool.not_eq_true'] at hcond
    exact ⟨beq_eq_false_iff_ne.mp hcond.1, hcond.2⟩
  · exact (List.take_sublist 3 _).trans (List.filter_sublist posts)
  · exact List.length_take 3 _
  · exact ⟨_, (List.take_append_drop 3 _).symm⟩
  · intro hlen
    exact List.take_of_length_le hlen

/-- Witness for C5 at slug `postgres-query-optimization` and `post1`. -/
theorem c5_witness :
    post1.id ≠ "postgres-query-optimization" ∧ post1.published = true :=
  (c5_related_articles blogPosts "postgres-query-optimization").1 post1 (by decide)


/-- C7: slug resolution never consults the `published` flag (rewriting
every flag commutes with resolution), list/search and related views only
ever surface published posts, and every post of the dataset is reachable
by direct navigation to its own id. -/
theorem c7_resolution_ignores_published :
    (∀ (posts : List BlogPost) (slug : String) (b : Bool),
      findPost (posts.map (setPublished b)) slug =
        (findPost posts slug).map (setPublished b)) ∧
    (∀ (posts : List BlogPost) (q : String) (t : Option String),
      ∀ p ∈ filterPostsIn posts q t, p.published = true) ∧
    (∀ (posts : List BlogPost) (slug : String),
      ∀ p ∈ relatedPostsIn posts slug, p.published = true) ∧
    (∀ p ∈ blogPosts, findPost blogPosts p.id = some p) := by
  refine ⟨?_, ?_, ?_, by decide⟩
  · intro posts slug b
    rw [findPost, findPost, List.find?_map]
    rfl
  · intro posts q t p hp
    have hcond := (List.mem_filter.mp hp).2
    simp only [Bool.and_eq_true] at hcond
    exact hcond.2
  · intro posts slug p hp
    have hcond := (List.mem_filter.mp (List.take_subset 3 _ hp)).2
    simp only [Bool.and_eq_true] at hcond
    exact hcond.2

/-- Witness for C7: with every post marked unpublished, the slug
`postgres-query-optimization` still resolves to its (unpublished)
record. -/
theorem c7_witness :
    findPost (blogPosts.map (setPublished false)) "postgres-query-optimization" =
      some (setPublished false post4) := by
  have h1 := c7_resolution_ignores_published.1 blogPosts "postgres-query-optimization" false
  have h2 := c7_resolution_ignores_published.2.2.2 post4 (by decide)
  rw [h1, show findPost blogPosts "postgres-query-optimization" = some post4 from h2]
  rfl

/-- C1: for every query and tag the blog list filter returns exactly the
published posts whose lowercased title or excerpt contains the lowercased
query as a substring and whose tag list contains the selected tag (no tag
constraint when `none`), in original dataset order (sublist — never
re-sorted); the empty query matches every post, and with no tag it returns
all published posts. -/
theorem c1_filter_spec :
    ∀ (q : String) (t : Option String),
      List.Sublist (filteredPosts q t) blogPosts ∧
      (∀ p, p ∈ filteredPosts q t ↔
        p ∈ blogPosts ∧ p.published = true ∧
        (IsSubstr (jsToLower q) (jsToLower p.title) ∨
          IsSubstr (jsToLower q) (jsToLower p.excerpt)) ∧
        (t = none ∨ ∃ tag, t = some tag ∧ tag ∈ p.tags)) ∧
      (∀ p, matchesSearch "" p = true) ∧
      filteredPosts "" none = blogPosts.filter fun p => p.published := by
  intro q t
  refine ⟨List.filter_sublist _, ?_, ?_, ?_⟩
  · intro p
    rw [filteredPosts, filterPostsIn, List.mem_filter]
    simp only [Bool.and_eq_true, matchesSearch_iff, matchesTag_iff]
    tauto
  · intro p
    simp [matchesSearch, jsToLower_empty, jsIncludes_empty]
  · rw [filteredPosts, filterPostsIn]
    refine List.filter_congr ?_
    intro p _
    simp [matchesSearch, matchesTag, jsToLower_empty, jsIncludes_empty]

/-- Witness for C1: with empty query and no tag, `post1` is listed. -/
theorem c1_witness : post1 ∈ filteredPosts "" none := by
  rw [(c1_filter_spec "" none).2.2.2]
  decide

/-- C3: the article view fetches iff the slug resolves by exact id
equality — an unresolved slug renders the terminal not-found view and
issues zero requests; a resolved slug issues exactly one request per mount,
to `/blogs/` ++ the record's markdown filename, and a successful body is
handed unmodified to the markdown renderer. -/
theorem c3_fetch_contract :
    (∀ (posts : List BlogPost) (slug : String),
      (findPost posts slug = none →
        mountFetches posts slug = [] ∧
        ∀ s, renderPost posts slug s = RenderedView.notFound) ∧
      (∀ post, findPost posts slug = some post →
        post.id = slug ∧
        mountFetches posts slug = ["/blogs/" ++ post.markdownFile] ∧
        ∀ body, renderPost posts slug
            (settleFetch initialState (FetchResult.response 200 body)) =
          RenderedView.article body)) ∧
    findPost blogPosts "does-not-exist" = none ∧
    mountFetches blogPosts "postgres-query-optimization" =
      ["/blogs/postgres-query-optimization.md"] := by
  refine ⟨?_, by decide, by decide⟩
  intro posts slug
  constructor
  · intro h
    refine ⟨by rw [mountFetches, h], fun s => by rw [renderPost, h]⟩
  · intro post h
    refine ⟨?_, by rw [mountFetches, h], fun body => by rw [renderPost, h]; rfl⟩
    have h' : List.find? (fun p => p.id == slug) posts = some post := h
    have h3 := List.find?_some h'
    exact beq_iff_eq.mp h3

/-- Witness for C3: the absent slug fetches nothing; the present slug
fetches its markdown path. -/
theorem c3_witness :
    mountFetches blogPosts "does-not-exist" = [] ∧
    mountFetches blogPosts "postgres-query-optimization" =
      ["/blogs/postgres-query-optimization.md"] :=
  ⟨((c3_fetch_contract.1 blogPosts "does-not-exist").1 (by decide)).1,
   c3_fetch_contract.2.2⟩

end Portfolio
